import Mathlib

/-!
Verification of the FastPaw request-admission gateway
(`middleware/security.js`, the `/public/consultar` and `/tokens/generate`
handlers of `server.js`, and the schema of `database/init.sql`).

The JavaScript middleware is shallowly embedded: database tables become
lists of structure values, every `pool.query` becomes an explicit read or
update of that state, and the `sha256` digest is an abstract `String →
String` parameter.  Timestamps are naturals (seconds); a calendar day is a
natural day index.  The regular expressions of the attack scanner are
translated into executable character-list matchers whose semantics are
spelled out next to each definition.
-/

namespace FastPaw

/-! ### Character and string helpers

`String.prototype.includes` and the regex primitives are modelled over
`List Char`.  All matchers are executable so that concrete scenarios can be
settled by `decide`. -/

/-- A regex word character for `\b` purposes: `[A-Za-z0-9_]`. -/
def isWordChar (c : Char) : Bool :=
  c.isAlphanum || c == '_'

/-- `pat` is a case-sensitive prefix of `s` (JS `String.prototype.includes`
at one position). -/
def prefixChars : List Char → List Char → Bool
  | [], _ => true
  | _ :: _, [] => false
  | k :: ks, c :: cs => k == c && prefixChars ks cs

/-- `pat` occurs somewhere in `s`, case-sensitively (JS `includes`). -/
def containsChars (pat : List Char) : List Char → Bool
  | [] => prefixChars pat []
  | c :: cs => prefixChars pat (c :: cs) || containsChars pat cs

/-- JS `source.includes(pat)`. -/
def containsStr (s pat : String) : Bool :=
  containsChars pat.toList s.toList

/-- `pat` is a case-insensitive prefix of `s` (the scanner regexes carry the
`i` flag). -/
def prefixCharsCI : List Char → List Char → Bool
  | [], _ => true
  | _ :: _, [] => false
  | k :: ks, c :: cs => (k.toLower == c.toLower) && prefixCharsCI ks cs

/-- `pat` occurs somewhere in `s`, case-insensitively. -/
def containsCharsCI (pat : List Char) : List Char → Bool
  | [] => prefixCharsCI pat []
  | c :: cs => prefixCharsCI pat (c :: cs) || containsCharsCI pat cs

/-- Case-insensitive substring test on strings. -/
def containsCI (s pat : String) : Bool :=
  containsCharsCI pat.toList s.toList

/-- `s` starts with `p` (JS `String.prototype.startsWith`). -/
def startsWithStr (s p : String) : Bool :=
  prefixChars p.toList s.toList

/-- The `\b` boundary after a keyword: end of input or a non-word char. -/
def boundaryAfterOk : List Char → Bool
  | [] => true
  | c :: _ => !(isWordChar c)

/-- The `\b` boundary before a keyword: start of input or a non-word char. -/
def boundaryBeforeOk : Option Char → Bool
  | none => true
  | some p => !(isWordChar p)

/-- The keyword `kw` matches at the head of `s` with a `\b` after it. -/
def wordAt (kw s : List Char) : Bool :=
  prefixCharsCI kw s && boundaryAfterOk (s.drop kw.length)

/-- Scan of `\bkw\b` (case-insensitive) over `s`; `prev` is the character
just before the current position. -/
def wordScan (kw : List Char) : Option Char → List Char → Bool
  | _, [] => false
  | prev, c :: cs => (boundaryBeforeOk prev && wordAt kw (c :: cs)) || wordScan kw (some c) cs

/-- `\bkw\b` with the `i` flag matches somewhere in `s`. -/
def wordMatch (kw : String) (s : String) : Bool :=
  wordScan kw.toList none s.toList

/-! ### The four scanner patterns of `detectAttacks`

Sources are kept verbatim (they feed the `pattern.source.includes(...)`
category sniffing of the middleware). -/

/-- Source text of the first pattern, `/(\bSELECT\b|\bUNION\b|\bINSERT\b|\bDELETE\b|\bDROP\b)/i`. -/
def sqlSource : String := "(\\bSELECT\\b|\\bUNION\\b|\\bINSERT\\b|\\bDELETE\\b|\\bDROP\\b)"

/-- Source text of the second pattern, the `<script ...>...</script>` regex
with flags `gi`. -/
def xssSource : String := "<script\\b[^<]*(?:(?!<\\/script>)<[^<]*)*<\\/script>"

/-- Source text of the third pattern, `/(\.\.|\/etc\/|\/bin\/|\/usr\/)/i`. -/
def pathSource : String := "(\\.\\.|\\/etc\\/|\\/bin\\/|\\/usr\\/)"

/-- Source text of the fourth pattern, `/(\beval\b|\bexec\b|\bsystem\b)/i`. -/
def cmdSource : String := "(\\beval\\b|\\bexec\\b|\\bsystem\\b)"

/-- The first scanner pattern: one of five SQL keywords, word-bounded,
case-insensitive. -/
def sqlInjectionTest (s : String) : Bool :=
  wordMatch "SELECT" s || wordMatch "UNION" s || wordMatch "INSERT" s ||
  wordMatch "DELETE" s || wordMatch "DROP" s

/-- One position of the script regex.  After `<script\b`, the body
`[^<]*(?:(?!<\/script>)<[^<]*)*` accepts every character run up to a
closing `</script>`, so the regex matches at this position exactly when the
boundary after `script` holds and `</script>` occurs later. -/
def scriptAt (s : List Char) : Bool :=
  prefixCharsCI "<script".toList s && boundaryAfterOk (s.drop 7) &&
  containsCharsCI "</script>".toList (s.drop 7)

/-- Scan of the script regex over the whole payload. -/
def scriptScan : List Char → Bool
  | [] => false
  | c :: cs => scriptAt (c :: cs) || scriptScan cs

/-- The second scanner pattern (script injection). -/
def scriptInjectionTest (s : String) : Bool :=
  scriptScan s.toList

/-- The third scanner pattern: `..`, `/etc/`, `/bin/` or `/usr/`. -/
def pathTraversalTest (s : String) : Bool :=
  containsCI s ".." || containsCI s "/etc/" || containsCI s "/bin/" || containsCI s "/usr/"

/-- The fourth scanner pattern: `eval`, `exec` or `system`, word-bounded. -/
def commandInjectionTest (s : String) : Bool :=
  wordMatch "eval" s || wordMatch "exec" s || wordMatch "system" s

/-- The category sniffing of `detectAttacks`: start from `malformed_input`
and run the four sequential (non-exclusive) `if (pattern.source.includes(...))`
assignments on the matched pattern's source text. -/
def attackTypeFor (source : String) : String :=
  let t0 := "malformed_input"
  let t1 := if containsStr source "SELECT|UNION" then "sql_injection" else t0
  let t2 := if containsStr source "script" then "xss" else t1
  let t3 := if containsStr source "etc|bin" then "path_traversal" else t2
  if containsStr source "eval|exec" then "command_injection" else t3

/-! ### Data model (`database/init.sql`)

Lifecycle states (`estado`), block kinds (`tipo_bloqueo`) and event names
are the plain strings the middleware compares against. -/

/-- A row of `usuarios` (the fields the gateway reads). -/
structure Usuario where
  id : Nat
  estado : String
  rol : String
  deriving DecidableEq

/-- A row of `api_tokens`. -/
structure Token where
  id : Nat
  usuarioId : Nat
  tokenHash : String
  limiteRequestsDiario : Nat
  requestsUtilizadosHoy : Nat
  totalRequestsHistorico : Nat
  estado : String
  fechaExpiracion : Option Nat
  ultimoUso : Option Nat
  ipUltimoUso : Option String
  userAgentUltimoUso : Option String
  deriving DecidableEq

/-- A row of `limits_usage` (one per owner and calendar day). -/
structure LimitsUsage where
  usuarioId : Nat
  fecha : Nat
  requestsCount : Nat
  deriving DecidableEq

/-- A row of `security_events`. -/
structure SecurityEvent where
  ip : String
  usuarioId : Option Nat
  eventoTipo : String
  severidad : String
  endpoint : String
  payloadSospechoso : Option String
  deriving DecidableEq

/-- A row of `attack_attempts`. -/
structure AttackAttempt where
  ip : String
  usuarioId : Option Nat
  attackType : String
  severidad : String
  payload : String
  payloadHash : String
  endpoint : String
  metodoHttp : String
  timestamp : Nat
  deriving DecidableEq

/-- A row of `blocked_ips` (`ip_address` carries a UNIQUE constraint). -/
structure BlockedIp where
  ip : String
  razon : String
  tipoBloqueo : String
  bloqueadoHasta : Option Nat
  intentosFallidos : Nat
  vecesBloqueado : Nat
  primerIncidente : Nat
  deriving DecidableEq

/-- The durable store shared by all middleware. -/
structure DB where
  usuarios : List Usuario
  tokens : List Token
  limitsUsage : List LimitsUsage
  securityEvents : List SecurityEvent
  attackAttempts : List AttackAttempt
  blockedIps : List BlockedIp
  deriving DecidableEq

/-! ### Audit log (`logSecurityEvent`, `logAttackAttempt`)

Both functions wrap their queries in `try/catch` and swallow failures.
`storageUp = false` models the durable store being unreachable: every
query throws and the `catch` branch runs, so the state is unchanged. -/

/-- `logSecurityEvent` of `middleware/security.js`: best-effort insert of a
`security_events` row (failures swallowed). -/
def logSecurityEvent (storageUp : Bool) (ip : String) (userId : Option Nat)
    (eventType sev endpoint : String) (payload : Option String) (db : DB) : DB :=
  if storageUp then
    { db with securityEvents :=
        { ip := ip, usuarioId := userId, eventoTipo := eventType, severidad := sev,
          endpoint := endpoint, payloadSospechoso := payload } :: db.securityEvents }
  else db

/-- The `INSERT INTO attack_attempts` step of `logAttackAttempt`. -/
def insertAttack (hash : String → String) (now : Nat) (ip : String) (userId : Option Nat)
    (attackType sev payload endpoint method : String) (db : DB) : DB :=
  { db with attackAttempts :=
      { ip := ip, usuarioId := userId, attackType := attackType, severidad := sev,
        payload := payload, payloadHash := hash payload, endpoint := endpoint,
        metodoHttp := method, timestamp := now } :: db.attackAttempts }

/-- `SELECT COUNT(*) FROM attack_attempts WHERE ip_address = $1 AND
timestamp > CURRENT_TIMESTAMP - INTERVAL '1 hour'`. -/
def recentAttackCount (now : Nat) (ip : String) (db : DB) : Nat :=
  (db.attackAttempts.filter (fun a => a.ip == ip && decide (now < a.timestamp + 3600))).length

/-- The `ON CONFLICT (ip_address) DO UPDATE` row transformer: overwrite the
expiry with now + 24h and bump both counters; other rows untouched. -/
def updBlock (now : Nat) (ip : String) (b : BlockedIp) : BlockedIp :=
  if b.ip == ip then
    { b with bloqueadoHasta := some (now + 86400),
             intentosFallidos := b.intentosFallidos + 1,
             vecesBloqueado := b.vecesBloqueado + 1 }
  else b

/-- The freshly inserted `blocked_ips` row (`tipo_bloqueo = 'temporal'`,
`bloqueado_hasta = now + 24h`, `intentos_fallidos =` the recent-attack
count, `veces_bloqueado` defaulting to 1). -/
def newBlockRow (now : Nat) (ip : String) (cnt : Nat) : BlockedIp :=
  { ip := ip, razon := "Multiples intentos de ataque detectados",
    tipoBloqueo := "temporal", bloqueadoHasta := some (now + 86400),
    intentosFallidos := cnt, vecesBloqueado := 1, primerIncidente := now }

/-- The auto-block section of `logAttackAttempt`: count this address's
attempts in the trailing hour and, on 5 or more, run the
`INSERT ... ON CONFLICT (ip_address) DO UPDATE` upsert of `blocked_ips`
keyed by the address. -/
def blockStage (now : Nat) (ip : String) (db1 : DB) : DB :=
  if 5 ≤ recentAttackCount now ip db1 then
    if db1.blockedIps.any (fun b => b.ip == ip) then
      { db1 with blockedIps := db1.blockedIps.map (updBlock now ip) }
    else
      { db1 with blockedIps :=
          newBlockRow now ip (recentAttackCount now ip db1) :: db1.blockedIps }
  else db1

/-- `logAttackAttempt` of `middleware/security.js`: insert the attempt,
then run the auto-block stage.  The surrounding `try/catch` swallows
storage failures. -/
def logAttackAttempt (storageUp : Bool) (hash : String → String) (now : Nat)
    (ip : String) (userId : Option Nat)
    (attackType sev payload endpoint method : String) (db : DB) : DB :=
  if storageUp then
    blockStage now ip (insertAttack hash now ip userId attackType sev payload endpoint method db)
  else db

/-! ### Threat scanner (`detectAttacks`) -/

/-- Outcome of the scanner middleware.  `rejected` is the constant HTTP 400
body `{error: 'Solicitud malformada detectada'}`: the constructor carries no
data because the response never echoes the payload or the matched pattern.
`passed` is `next()`. -/
inductive DetectResult where
  | rejected
  | passed
  deriving DecidableEq

/-- `detectAttacks` of `middleware/security.js`.  `payload` is the
concatenation `JSON.stringify(req.body) + req.query + req.params` computed
by the caller.  The `for` loop tries the four patterns in declaration
order and returns on the first match, recording an `attack_attempts` row
(severity `alta`) before responding. -/
def detectAttacks (storageUp : Bool) (hash : String → String) (now : Nat)
    (ip : String) (userId : Option Nat) (payload endpoint method : String)
    (db : DB) : DetectResult × DB :=
  if sqlInjectionTest payload then
    (.rejected, logAttackAttempt storageUp hash now ip userId (attackTypeFor sqlSource)
      "alta" payload endpoint method db)
  else if scriptInjectionTest payload then
    (.rejected, logAttackAttempt storageUp hash now ip userId (attackTypeFor xssSource)
      "alta" payload endpoint method db)
  else if pathTraversalTest payload then
    (.rejected, logAttackAttempt storageUp hash now ip userId (attackTypeFor pathSource)
      "alta" payload endpoint method db)
  else if commandInjectionTest payload then
    (.rejected, logAttackAttempt storageUp hash now ip userId (attackTypeFor cmdSource)
      "alta" payload endpoint method db)
  else
    (.passed, db)

/-! ### Token authentication (`validateAPIToken`) -/

/-- The `JOIN usuarios u ON at.usuario_id = u.id ... AND u.estado =
'activo'` side of the token lookup. -/
def joinedUser (db : DB) (uid : Nat) : Option Usuario :=
  db.usuarios.find? (fun u => u.id == uid && u.estado == "activo")

/-- `SELECT at.*, u.estado, u.rol FROM api_tokens at JOIN usuarios u ...
WHERE at.token_hash = $1 AND at.estado = 'activo' AND u.estado = 'activo'`;
`rows[0]` of the result. -/
def tokenLookup (db : DB) (h : String) : Option Token :=
  db.tokens.find? (fun t => t.tokenHash == h && t.estado == "activo" &&
    (joinedUser db t.usuarioId).isSome)

/-- `SELECT requests_count FROM limits_usage WHERE usuario_id = $1 AND
fecha = $2`, with the JS default `rows[0]?.requests_count || 0`. -/
def currentUsage (db : DB) (uid today : Nat) : Nat :=
  ((db.limitsUsage.find? (fun r => r.usuarioId == uid && r.fecha == today)).map
    (fun r => r.requestsCount)).getD 0

/-- `UPDATE api_tokens SET estado = 'expirado' WHERE id = $2`. -/
def expireTokenStep (tokenId : Nat) (db : DB) : DB :=
  { db with tokens := db.tokens.map (fun x =>
      if x.id == tokenId then { x with estado := "expirado" } else x) }

/-- `UPDATE api_tokens SET ultimo_uso = CURRENT_TIMESTAMP, ip_ultimo_uso =
$1, user_agent_ultimo_uso = $2 WHERE id = $3`. -/
def lastUseStep (now : Nat) (ip ua : String) (tokenId : Nat) (db : DB) : DB :=
  { db with tokens := db.tokens.map (fun x =>
      if x.id == tokenId then
        { x with ultimoUso := some now, ipUltimoUso := some ip, userAgentUltimoUso := some ua }
      else x) }

/-- The token has an expiry instant strictly in the past
(`new Date() > new Date(token.fecha_expiracion)`). -/
def tokenExpired (now : Nat) (t : Token) : Bool :=
  match t.fechaExpiracion with
  | none => false
  | some exp => decide (exp < now)

/-- Outcome of `validateAPIToken`.  `missing`, `invalidToken` and
`expiredToken` are the three 401 responses, `rateLimited` the 429 body
`{limite, usado}`, `ok` is `next()` with `req.apiToken`/`req.user` set, and
`internalError` the catch-all 500. -/
inductive VResult where
  | missing
  | invalidToken
  | expiredToken
  | rateLimited (limite usado : Nat)
  | ok (token : Token) (rol : String)
  | internalError
  deriving DecidableEq

/-- `validateAPIToken` of `middleware/security.js`.  The missing-header
check runs before the `try` block; with the store down every query inside
the `try` throws, the catch logs a (swallowed) event and answers 500. -/
def validateAPIToken (storageUp : Bool) (hash : String → String) (now today : Nat)
    (apiToken : Option String) (ip ua path : String) (db : DB) : VResult × DB :=
  match apiToken with
  | none =>
      (.missing, logSecurityEvent storageUp ip none "token_invalido" "media" path
        (some "Missing API token") db)
  | some raw =>
      if raw == "" then
        (.missing, logSecurityEvent storageUp ip none "token_invalido" "media" path
          (some "Missing API token") db)
      else if !storageUp then
        (.internalError, db)
      else
        match tokenLookup db (hash raw) with
        | none =>
            (.invalidToken, logSecurityEvent true ip none "token_invalido" "alta" path
              (some (raw.take 10 ++ "...")) db)
        | some t =>
            if tokenExpired now t then
              (.expiredToken, logSecurityEvent true ip (some t.usuarioId) "token_expirado"
                "media" path none (expireTokenStep t.id db))
            else
              let usage := currentUsage db t.usuarioId today
              if t.limiteRequestsDiario ≤ usage then
                (.rateLimited t.limiteRequestsDiario usage,
                 logSecurityEvent true ip (some t.usuarioId) "rate_limit_excedido" "media"
                   path none db)
              else
                (.ok t (((joinedUser db t.usuarioId).map (fun u => u.rol)).getD ""),
                 lastUseStep now ip ua t.id db)

/-! ### Block registry check (`checkBlockedIP`) -/

/-- Outcome of the block check: the 403 body carries `razon` and
`bloqueado_hasta`; `proceed` is `next()`. -/
inductive BlockResult where
  | blockedResp (razon : String) (hasta : Option Nat)
  | proceed
  deriving DecidableEq

/-- The `WHERE` clause of the block lookup: address match and
`bloqueado_hasta IS NULL OR bloqueado_hasta > CURRENT_TIMESTAMP`. -/
def blockActiveRow (now : Nat) (ip : String) (b : BlockedIp) : Bool :=
  b.ip == ip &&
    (match b.bloqueadoHasta with
     | none => true
     | some h => decide (now < h))

/-- `checkBlockedIP` of `middleware/security.js`: a pure read; the catch
branch calls `next()`, so a storage failure lets the request continue. -/
def checkBlockedIP (storageUp : Bool) (now : Nat) (ip : String) (db : DB) :
    BlockResult × DB :=
  if storageUp then
    match db.blockedIps.find? (blockActiveRow now ip) with
    | some b => (.blockedResp b.razon b.bloqueadoHasta, db)
    | none => (.proceed, db)
  else (.proceed, db)

/-! ### Public consult endpoint (`/public/consultar/:token/:ruc`)

The downstream Python proxy call and the `requests_log` insert that follow
a successful admission (server.js lines 701-733) are outside the gateway's
admission decision and do not touch `api_tokens` or `limits_usage`; the
model stops at the admission response. -/

/-- Outcome of the public consult gateway.  `invalidFormat`/`invalidToken`
are 401, `invalidRuc` 400, `limitExceeded` the 429 body `{limite, usado}`,
and `admitted` the successful handoff carrying `requests_restantes` and
`limite_diario` of the `token_info` block. -/
inductive PubResult where
  | invalidFormat
  | invalidRuc
  | invalidToken
  | limitExceeded (limite usado : Nat)
  | admitted (restantes limite : Nat)
  deriving DecidableEq

/-- `/^\d+$/.test(ruc) && [10, 13].includes(ruc.length)`. -/
def rucValid (ruc : String) : Bool :=
  !(ruc == "") && ruc.toList.all (fun c => c.isDigit) &&
    (ruc.length == 10 || ruc.length == 13)

/-- `UPDATE api_tokens SET requests_utilizados_hoy = requests_utilizados_hoy
+ 1, total_requests_historico = total_requests_historico + 1, ultimo_uso =
CURRENT_TIMESTAMP WHERE id = $1` — the charge step, a separate query issued
only after the quota comparison on the previously fetched row. -/
def quotaChargeStep (now : Nat) (tokenId : Nat) (db : DB) : DB :=
  { db with tokens := db.tokens.map (fun x =>
      if x.id == tokenId then
        { x with requestsUtilizadosHoy := x.requestsUtilizadosHoy + 1,
                 totalRequestsHistorico := x.totalRequestsHistorico + 1,
                 ultimoUso := some now }
      else x) }

/-- The `/public/consultar/:token/:ruc` handler of `server.js` up to the
admission decision: format checks, digest lookup (same active-token and
active-owner join as the middleware), quota comparison against the token
row's `requests_utilizados_hoy`, and the charge update on pass. -/
def publicConsultar (hash : String → String) (now : Nat)
    (token ruc ip : String) (db : DB) : PubResult × DB :=
  if !(startsWithStr token "fp_") then (.invalidFormat, db)
  else if !(rucValid ruc) then (.invalidRuc, db)
  else
    match tokenLookup db (hash token) with
    | none =>
        (.invalidToken, logSecurityEvent true ip none "token_invalido" "alta"
          "/public/consultar" (some (token.take 10 ++ "...")) db)
    | some t =>
        if t.limiteRequestsDiario ≤ t.requestsUtilizadosHoy then
          (.limitExceeded t.limiteRequestsDiario t.requestsUtilizadosHoy,
           logSecurityEvent true ip (some t.usuarioId) "limite_excedido" "media"
             "/public/consultar" none db)
        else
          (.admitted (t.limiteRequestsDiario - t.requestsUtilizadosHoy - 1)
             t.limiteRequestsDiario,
           quotaChargeStep now t.id db)

/-! ### Token issuance (`POST /tokens/generate`) -/

/-- The `/tokens/generate` handler of `server.js`: insert an `api_tokens`
row whose `token_hash` is the digest of the raw secret
`fp_<64 random hex chars>` (the random part is abstracted as the `secret`
argument), with ceiling `limite_diario || 1000` and fresh counters; the
raw secret itself is returned to the caller and never stored. -/
def generateToken (hash : String → String) (newId uid : Nat)
    (limiteDiario : Option Nat) (secret : String) (db : DB) : DB :=
  { db with tokens :=
      { id := newId, usuarioId := uid, tokenHash := hash secret,
        limiteRequestsDiario := limiteDiario.getD 1000,
        requestsUtilizadosHoy := 0, totalRequestsHistorico := 0,
        estado := "activo", fechaExpiracion := none,
        ultimoUso := none, ipUltimoUso := none, userAgentUltimoUso := none } :: db.tokens }

/-! ### Concrete fixtures for scenarios and witnesses -/

/-- Identity digest used to instantiate the abstract `sha256` parameter in
concrete scenarios (any injective digest works). -/
def hashId : String → String := fun s => s

/-- An active owner. -/
def demoUser : Usuario := { id := 1, estado := "activo", rol := "usuario" }

/-- An active token of `demoUser` with daily ceiling 3 and zero usage
today. -/
def demoToken : Token :=
  { id := 1, usuarioId := 1, tokenHash := "fp_t", limiteRequestsDiario := 3,
    requestsUtilizadosHoy := 0, totalRequestsHistorico := 0, estado := "activo",
    fechaExpiracion := none, ultimoUso := none, ipUltimoUso := none,
    userAgentUltimoUso := none }

/-- An empty store. -/
def emptyDb : DB :=
  { usuarios := [], tokens := [], limitsUsage := [], securityEvents := [],
    attackAttempts := [], blockedIps := [] }

/-- Store for the ceiling-3 scenario. -/
def demoDb : DB :=
  { usuarios := [demoUser], tokens := [demoToken], limitsUsage := [],
    securityEvents := [], attackAttempts := [], blockedIps := [] }

/-- One request of the ceiling-3 scenario: the public consult endpoint hit
with `demoToken`'s raw secret and a well-formed 10-digit RUC. -/
def demoStep (db : DB) : PubResult × DB :=
  publicConsultar hashId 100 "fp_t" "1234567890" "9.9.9.9" db

/-- C1: with ceiling 3 and zero usage recorded today, four sequential
authenticated requests through the public quota-admission path admit
requests 1-3 (with 2, 1, 0 remaining) and reject request 4 with the
quota-exceeded response whose body reports ceiling 3 and current usage 3. -/
theorem c1_sequential_quota_scenario :
    (demoStep demoDb).1 = PubResult.admitted 2 3 ∧
    (demoStep (demoStep demoDb).2).1 = PubResult.admitted 1 3 ∧
    (demoStep (demoStep (demoStep demoDb).2).2).1 = PubResult.admitted 0 3 ∧
    (demoStep (demoStep (demoStep (demoStep demoDb).2).2).2).1 =
      PubResult.limitExceeded 3 3 := by decide

/-- The apostrophe character. -/
def apos : Char := Char.ofNat 39

/-- The scenario payload of the spec: `' OR 1=1 --`. -/
def orPayload : String := String.mk (apos :: (" OR 1=1 --".toList))

/-- A payload containing a listed SQL keyword. -/
def unionPayload : String := "1 UNION SELECT 2"

/-- C4 counterexample: the payload `' OR 1=1 --` matches none of the four
scanner patterns (the SQL pattern only looks for the word-bounded keywords
SELECT, UNION, INSERT, DELETE, DROP), so `detectAttacks` records nothing
and passes the request on — it is not rejected as an attack. -/
theorem c4_or_payload_not_detected :
    detectAttacks true hashId 100 "9.9.9.9" none orPayload "/public/consultar" "POST"
        emptyDb = (DetectResult.passed, emptyDb) ∧
    sqlInjectionTest orPayload = false := by decide

/-- C4 amended: `' OR 1=1 --` matches no detector and flows through the
scanner unrecorded; a body payload containing a listed SQL keyword (here
`1 UNION SELECT 2`) is rejected with the constant generic 400 body (the
`rejected` outcome carries no payload detail) and an `attack_attempts` fact
is recorded before the response — though with recorded category
`malformed_input`, not sql-injection (see C5). -/
theorem c4_scanner_on_scenario_payloads :
    (sqlInjectionTest orPayload = false ∧ scriptInjectionTest orPayload = false ∧
     pathTraversalTest orPayload = false ∧ commandInjectionTest orPayload = false) ∧
    detectAttacks true hashId 100 "9.9.9.9" none orPayload "/public/consultar" "POST"
        emptyDb = (DetectResult.passed, emptyDb) ∧
    (detectAttacks true hashId 100 "9.9.9.9" none unionPayload "/public/consultar" "POST"
        emptyDb).1 = DetectResult.rejected ∧
    ((detectAttacks true hashId 100 "9.9.9.9" none unionPayload "/public/consultar" "POST"
        emptyDb).2.attackAttempts.map (fun a => (a.attackType, a.payload))) =
      [("malformed_input", unionPayload)] := by decide

/-- A payload matching both the SQL-injection and the script-injection
detector. -/
def dualPayload : String := "1 UNION SELECT 2 <script>a</script>"

/-- C5: a payload matching both the SQL-injection and the script-injection
pattern is caught by the SQL pattern first (the `for` loop tries it first
and returns), but the recorded category is `malformed_input`, not
`sql_injection`: the category sniff `pattern.source.includes('SELECT|UNION')`
can never hold of the actual pattern source (which reads `SELECT\b|\bUNION`),
so the `sql_injection` assignment is dead code. -/
theorem c5_dual_match_records_malformed_input :
    sqlInjectionTest dualPayload = true ∧
    scriptInjectionTest dualPayload = true ∧
    (detectAttacks true hashId 100 "8.8.8.8" none dualPayload "/p" "POST" emptyDb).1 =
      DetectResult.rejected ∧
    ((detectAttacks true hashId 100 "8.8.8.8" none dualPayload "/p" "POST"
        emptyDb).2.attackAttempts.map (fun a => a.attackType)) = ["malformed_input"] ∧
    attackTypeFor sqlSource = "malformed_input" ∧
    containsStr sqlSource "SELECT|UNION" = false := by decide

/-- `demoDb` with an explicit zero-count `limits_usage` row for the owner
and the current day. -/
def demoDbU : DB :=
  { demoDb with limitsUsage := [{ usuarioId := 1, fecha := 7, requestsCount := 0 }] }

/-- C2 counterexample: a request that passes the quota check is admitted,
yet the owner's daily usage counter (the `limits_usage` row) keeps its
prior value 0 — the admission path updates only the `api_tokens` row, so
the claimed increment of the owner's counter does not happen. -/
theorem c2_counterexample_owner_counter_untouched :
    (publicConsultar hashId 100 "fp_t" "1234567890" "9.9.9.9" demoDbU).1 =
      PubResult.admitted 2 3 ∧
    (publicConsultar hashId 100 "fp_t" "1234567890" "9.9.9.9" demoDbU).2.limitsUsage =
      [{ usuarioId := 1, fecha := 7, requestsCount := 0 }] := by decide

/-- An active token with daily ceiling 1 and zero usage, for the
interleaving demonstration. -/
def raceToken : Token :=
  { demoToken with id := 5, tokenHash := "fp_r", limiteRequestsDiario := 1 }

/-- Store holding only `raceToken`. -/
def raceDb : DB := { demoDb with tokens := [raceToken] }

/-- C2 amended: on a request that passes the quota check the admission
operation increments the token row's today-usage count and lifetime total
and sets its last-use timestamp, and admits; the owner's daily usage
counter is left unchanged, and the check and the increment are two
separate storage steps — the decision is a comparison on the previously
fetched row and the charge a later unconditional update, so two requests
that both read before either update are both admitted even with ceiling 1,
after which the usage count 2 exceeds the ceiling. -/
theorem c2_admission_charges_token_only
    (hash : String → String) (now : Nat) (token ruc ip : String) (db : DB) (t : Token)
    (hFmt : startsWithStr token "fp_" = true)
    (hRuc : rucValid ruc = true)
    (hLook : tokenLookup db (hash token) = some t)
    (hQuota : t.requestsUtilizadosHoy < t.limiteRequestsDiario) :
    publicConsultar hash now token ruc ip db =
      (PubResult.admitted (t.limiteRequestsDiario - t.requestsUtilizadosHoy - 1)
        t.limiteRequestsDiario, quotaChargeStep now t.id db) ∧
    (quotaChargeStep now t.id db).limitsUsage = db.limitsUsage ∧
    (quotaChargeStep now t.id db).tokens = db.tokens.map (fun x =>
      if x.id == t.id then
        { x with requestsUtilizadosHoy := x.requestsUtilizadosHoy + 1,
                 totalRequestsHistorico := x.totalRequestsHistorico + 1,
                 ultimoUso := some now }
      else x) ∧
    (publicConsultar hashId 100 "fp_r" "1234567890" "7.7.7.7" raceDb).1 =
      PubResult.admitted 0 1 ∧
    (quotaChargeStep 100 5 (quotaChargeStep 100 5 raceDb)).tokens =
      [{ raceToken with requestsUtilizadosHoy := 2, totalRequestsHistorico := 2,
                         ultimoUso := some 100 }] := by
  have hno : ¬ (t.limiteRequestsDiario ≤ t.requestsUtilizadosHoy) := Nat.not_le.mpr hQuota
  refine ⟨?_, rfl, rfl, by decide, by decide⟩
  simp [publicConsultar, hFmt, hRuc, hLook, hno]

/-- C2 witness: the amended statement evaluated on the ceiling-3 store. -/
theorem c2_admission_charges_token_only_witness :
    publicConsultar hashId 100 "fp_t" "1234567890" "9.9.9.9" demoDb =
      (PubResult.admitted (demoToken.limiteRequestsDiario -
        demoToken.requestsUtilizadosHoy - 1) demoToken.limiteRequestsDiario,
       quotaChargeStep 100 demoToken.id demoDb) ∧
    (quotaChargeStep 100 demoToken.id demoDb).limitsUsage = demoDb.limitsUsage ∧
    (quotaChargeStep 100 demoToken.id demoDb).tokens = demoDb.tokens.map (fun x =>
      if x.id == demoToken.id then
        { x with requestsUtilizadosHoy := x.requestsUtilizadosHoy + 1,
                 totalRequestsHistorico := x.totalRequestsHistorico + 1,
                 ultimoUso := some 100 }
      else x) ∧
    (publicConsultar hashId 100 "fp_r" "1234567890" "7.7.7.7" raceDb).1 =
      PubResult.admitted 0 1 ∧
    (quotaChargeStep 100 5 (quotaChargeStep 100 5 raceDb)).tokens =
      [{ raceToken with requestsUtilizadosHoy := 2, totalRequestsHistorico := 2,
                         ultimoUso := some 100 }] :=
  c2_admission_charges_token_only hashId 100 "fp_t" "1234567890" "9.9.9.9" demoDb
    demoToken (by decide) (by decide) (by decide) (by decide)

/-- C10: whenever the public consult endpoint rejects with the
quota-exceeded response, the whole `api_tokens` table (hence the token
row's today-usage count, lifetime total and last-use metadata) and the
`limits_usage` table keep their prior values: the usage update runs only
after the quota check passes. -/
theorem c10_quota_reject_leaves_token_unchanged
    (hash : String → String) (now : Nat) (token ruc ip : String) (db : DB) (t : Token)
    (hFmt : startsWithStr token "fp_" = true)
    (hRuc : rucValid ruc = true)
    (hLook : tokenLookup db (hash token) = some t)
    (hQuota : t.limiteRequestsDiario ≤ t.requestsUtilizadosHoy) :
    (publicConsultar hash now token ruc ip db).1 =
      PubResult.limitExceeded t.limiteRequestsDiario t.requestsUtilizadosHoy ∧
    (publicConsultar hash now token ruc ip db).2.tokens = db.tokens ∧
    (publicConsultar hash now token ruc ip db).2.limitsUsage = db.limitsUsage := by
  simp [publicConsultar, hFmt, hRuc, hLook, hQuota, logSecurityEvent]

/-- A token whose daily ceiling is already consumed. -/
def exhaustedToken : Token :=
  { demoToken with id := 2, tokenHash := "fp_e", requestsUtilizadosHoy := 3 }

/-- Store holding only `exhaustedToken`. -/
def exhaustedDb : DB := { demoDb with tokens := [exhaustedToken] }

/-- C10 witness: the frame condition evaluated on an exhausted token. -/
theorem c10_quota_reject_leaves_token_unchanged_witness :
    (publicConsultar hashId 100 "fp_e" "1234567890" "9.9.9.9" exhaustedDb).1 =
      PubResult.limitExceeded exhaustedToken.limiteRequestsDiario
        exhaustedToken.requestsUtilizadosHoy ∧
    (publicConsultar hashId 100 "fp_e" "1234567890" "9.9.9.9" exhaustedDb).2.tokens =
      exhaustedDb.tokens ∧
    (publicConsultar hashId 100 "fp_e" "1234567890" "9.9.9.9" exhaustedDb).2.limitsUsage =
      exhaustedDb.limitsUsage :=
  c10_quota_reject_leaves_token_unchanged hashId 100 "fp_e" "1234567890" "9.9.9.9"
    exhaustedDb exhaustedToken (by decide) (by decide) (by decide) (by decide)

/-- C3 amended: `validateAPIToken` evaluates its cases in order — absent
(or empty) credential is rejected as missing; a failed digest lookup,
which requires both the token's and the owner's lifecycle state to be
active, yields the one uniform invalid-or-revoked error whatever the
reason for the failure; a token found but past its expiry instant is
transitioned to the expired state and the caller receives the expired
error; a surviving token is then subject to the daily-quota gate embedded
in the same middleware (quota-exceeded when the owner's recorded usage
reaches the ceiling); only otherwise is the resolved token returned
together with the owner identity and role. -/
theorem c3_authenticate_case_order
    (hash : String → String) (now today : Nat) (ip ua path : String) (db : DB) :
    (validateAPIToken true hash now today none ip ua path db).1 = VResult.missing ∧
    (∀ raw : String, (raw == "") = false →
      (tokenLookup db (hash raw) = none →
        (validateAPIToken true hash now today (some raw) ip ua path db).1 =
          VResult.invalidToken) ∧
      (∀ t : Token, tokenLookup db (hash raw) = some t →
        (tokenExpired now t = true →
          validateAPIToken true hash now today (some raw) ip ua path db =
            (VResult.expiredToken,
             logSecurityEvent true ip (some t.usuarioId) "token_expirado" "media" path
               none (expireTokenStep t.id db))) ∧
        (tokenExpired now t = false →
          t.limiteRequestsDiario ≤ currentUsage db t.usuarioId today →
          (validateAPIToken true hash now today (some raw) ip ua path db).1 =
            VResult.rateLimited t.limiteRequestsDiario
              (currentUsage db t.usuarioId today)) ∧
        (tokenExpired now t = false →
          currentUsage db t.usuarioId today < t.limiteRequestsDiario →
          validateAPIToken true hash now today (some raw) ip ua path db =
            (VResult.ok t (((joinedUser db t.usuarioId).map (fun u => u.rol)).getD ""),
             lastUseStep now ip ua t.id db)))) := by
  refine ⟨rfl, ?_⟩
  intro raw hraw
  constructor
  · intro hnone
    simp [validateAPIToken, hraw, hnone]
  · intro t ht
    refine ⟨?_, ?_, ?_⟩
    · intro hexp
      simp [validateAPIToken, hraw, ht, hexp]
    · intro hexp hq
      simp [validateAPIToken, hraw, ht, hexp, hq]
    · intro hexp hq
      simp [validateAPIToken, hraw, ht, hexp, Nat.not_le.mpr hq]

/-- C3 witness: the resolved-token case evaluated on the ceiling-3
store. -/
theorem c3_authenticate_case_order_witness :
    validateAPIToken true hashId 100 7 (some "fp_t") "9.9.9.9" "ua" "/p" demoDb =
      (VResult.ok demoToken
        (((joinedUser demoDb demoToken.usuarioId).map (fun u => u.rol)).getD ""),
       lastUseStep 100 "9.9.9.9" "ua" demoToken.id demoDb) :=
  ((((c3_authenticate_case_order hashId 100 7 "9.9.9.9" "ua" "/p" demoDb).2 "fp_t"
      (by decide)).2 demoToken (by decide)).2.2) (by decide) (by decide)

/-- An active token whose owner already has 5 requests recorded today
against a ceiling of 3. -/
def c3Token : Token := { demoToken with id := 3, tokenHash := "fp_q" }

/-- Store for the quota case of C3: valid active token and owner, no
expiry, but today's usage 5 has passed the ceiling 3. -/
def c3Db : DB :=
  { demoDb with tokens := [c3Token],
                limitsUsage := [{ usuarioId := 1, fecha := 7, requestsCount := 5 }] }

/-- The middleware's outcome hands the resolved token to the next stage. -/
def isResolved : VResult → Bool
  | VResult.ok _ _ => true
  | _ => false

/-- C3 counterexample: a present, valid, unexpired credential for which
the middleware nevertheless does not return the resolved token — it
answers the quota-exceeded error, a fifth case absent from the claim's
"otherwise the resolved token is returned". -/
theorem c3_counterexample_quota_case :
    (validateAPIToken true hashId 100 7 (some "fp_q") "9.9.9.9" "ua" "/p" c3Db).1 =
      VResult.rateLimited 3 5 ∧
    isResolved
      (validateAPIToken true hashId 100 7 (some "fp_q") "9.9.9.9" "ua" "/p" c3Db).1 =
        false := by decide

/-- The upsert's row transformer leaves every row of a different address
unchanged. -/
theorem map_updBlock_eq_self (now : Nat) (ip : String) (l : List BlockedIp)
    (h : ∀ x ∈ l, x.ip ≠ ip) : l.map (updBlock now ip) = l := by
  induction l with
  | nil => rfl
  | cons x xs ih =>
    have hx : (x.ip == ip) = false := beq_eq_false_iff_ne.mpr (h x (by simp))
    simp [updBlock, hx, ih (fun y hy => h y (by simp [hy]))]

/-- C6 amended: on the 5th qualifying attack from one address within the
trailing one-hour window, a `blocked_ips` row for the address is created
with kind temporary, expiry now + 24h and the recent-attack count as its
failed-attempt counter; if a row for the address already exists, that same
single row is updated in place — its expiry is set to now + 24h regardless
of the prior value (so it is extended when the prior expiry is at most
now + 24h, but a later or absent expiry is overwritten and thereby
shortened) and its failed-attempt and times-blocked counters are
incremented, its kind untouched — and no duplicate row is inserted, so the
address stays unique across the block registry. -/
theorem c6_block_upsert
    (hash : String → String) (now : Nat) (ip : String) (uid : Option Nat)
    (atype sev payload endpoint method : String) (db : DB)
    (hcnt : 5 ≤ recentAttackCount now ip
      (insertAttack hash now ip uid atype sev payload endpoint method db)) :
    (∀ pre b post, db.blockedIps = pre ++ b :: post → b.ip = ip →
      (∀ x ∈ pre, x.ip ≠ ip) → (∀ x ∈ post, x.ip ≠ ip) →
      (logAttackAttempt true hash now ip uid atype sev payload endpoint method
          db).blockedIps =
        pre ++ { b with bloqueadoHasta := some (now + 86400),
                        intentosFallidos := b.intentosFallidos + 1,
                        vecesBloqueado := b.vecesBloqueado + 1 } :: post) ∧
    ((∀ x ∈ db.blockedIps, x.ip ≠ ip) →
      (logAttackAttempt true hash now ip uid atype sev payload endpoint method
          db).blockedIps =
        newBlockRow now ip (recentAttackCount now ip
          (insertAttack hash now ip uid atype sev payload endpoint method db)) ::
          db.blockedIps) := by
  have hstep : logAttackAttempt true hash now ip uid atype sev payload endpoint method db =
      blockStage now ip (insertAttack hash now ip uid atype sev payload endpoint method db) :=
    rfl
  have hins : (insertAttack hash now ip uid atype sev payload endpoint method db).blockedIps =
      db.blockedIps := rfl
  constructor
  · intro pre b post hsplit hbipEq hpre hpost
    have hmem : b ∈ db.blockedIps := by
      rw [hsplit]
      exact List.mem_append_right _ (List.mem_cons_self _ _)
    have hany : db.blockedIps.any (fun x => x.ip == ip) = true :=
      List.any_eq_true.mpr ⟨b, hmem, beq_iff_eq.mpr hbipEq⟩
    have hupd : updBlock now ip b =
        { b with bloqueadoHasta := some (now + 86400),
                 intentosFallidos := b.intentosFallidos + 1,
                 vecesBloqueado := b.vecesBloqueado + 1 } := by
      simp [updBlock, hbipEq]
    rw [hstep]
    unfold blockStage
    rw [if_pos hcnt, hins]
    rw [if_pos hany]
    show db.blockedIps.map (updBlock now ip) = _
    rw [hsplit, List.map_append, List.map_cons,
      map_updBlock_eq_self now ip pre hpre, map_updBlock_eq_self now ip post hpost, hupd]
  · intro hnone
    have hany : db.blockedIps.any (fun x => x.ip == ip) = false := by
      rw [List.any_eq_false]
      intro x hx
      simpa using beq_eq_false_iff_ne.mpr (hnone x hx)
    rw [hstep]
    unfold blockStage
    rw [if_pos hcnt, hins]
    rw [if_neg (by simp [hany])]

/-- An attack-attempt row from the repeat-offender address at time `ts`. -/
def c6Attack (ts : Nat) : AttackAttempt :=
  { ip := "5.5.5.5", usuarioId := none, attackType := "xss", severidad := "alta",
    payload := "x", payloadHash := "x", endpoint := "/p", metodoHttp := "POST",
    timestamp := ts }

/-- An existing block row for that address whose expiry lies far beyond
now + 24h. -/
def c6Block : BlockedIp :=
  { ip := "5.5.5.5", razon := "manual", tipoBloqueo := "escalado",
    bloqueadoHasta := some 999999, intentosFallidos := 2, vecesBloqueado := 3,
    primerIncidente := 0 }

/-- Store with four recent attacks from the address and the long-lived
block row. -/
def c6Db : DB :=
  { emptyDb with attackAttempts := [c6Attack 90, c6Attack 91, c6Attack 92, c6Attack 93],
                 blockedIps := [c6Block] }

/-- C6 counterexample: the address's existing block row expires at 999999,
yet the upsert run by the 5th attack at time 100 overwrites the expiry
with 100 + 24h = 86500 < 999999 — the expiry is shortened, refuting
"extended (never shortened)". -/
theorem c6_counterexample_expiry_shortened :
    c6Block.bloqueadoHasta = some 999999 ∧
    ((logAttackAttempt true hashId 100 "5.5.5.5" none "xss" "alta" "x" "/p" "POST"
        c6Db).blockedIps.map (fun b => b.bloqueadoHasta)) = [some 86500] ∧
    86500 < 999999 := by decide

/-- C6 witness: the update branch of the upsert evaluated on the concrete
repeat-offender store. -/
theorem c6_block_upsert_witness :
    (logAttackAttempt true hashId 100 "5.5.5.5" none "xss" "alta" "x" "/p" "POST"
        c6Db).blockedIps =
      [] ++ { c6Block with bloqueadoHasta := some (100 + 86400),
                           intentosFallidos := c6Block.intentosFallidos + 1,
                           vecesBloqueado := c6Block.vecesBloqueado + 1 } :: [] :=
  (c6_block_upsert hashId 100 "5.5.5.5" none "xss" "alta" "x" "/p" "POST" c6Db
      (by decide)).1 [] c6Block [] rfl rfl (by simp) (by simp)

/-- The `WHERE` clause of the block lookup, characterised: address match
and either no expiry stored or an expiry in the future. -/
theorem blockActiveRow_iff (now : Nat) (ip : String) (b : BlockedIp) :
    blockActiveRow now ip b = true ↔
      b.ip = ip ∧ (b.bloqueadoHasta = none ∨ ∃ h, b.bloqueadoHasta = some h ∧ now < h) := by
  unfold blockActiveRow
  cases hb : b.bloqueadoHasta with
  | none => simp [hb]
  | some h => simp [hb]

/-- C7: the block check reports an address blocked exactly when a block
row for it exists whose kind is permanent or whose expiry lies in the
future (under the data-model invariant that a row's kind is permanent
exactly when its expiry instant is absent), and the check performs no
writes — the store is returned unchanged. -/
theorem c7_isBlocked_readonly_iff (now : Nat) (ip : String) (db : DB)
    (hInv : ∀ b ∈ db.blockedIps, (b.tipoBloqueo = "permanente" ↔ b.bloqueadoHasta = none)) :
    (checkBlockedIP true now ip db).2 = db ∧
    ((checkBlockedIP true now ip db).1 ≠ BlockResult.proceed ↔
      ∃ b ∈ db.blockedIps, b.ip = ip ∧
        (b.tipoBloqueo = "permanente" ∨ ∃ h, b.bloqueadoHasta = some h ∧ now < h)) := by
  have hstate : (checkBlockedIP true now ip db).2 = db := by
    unfold checkBlockedIP
    cases hf : db.blockedIps.find? (blockActiveRow now ip) <;> simp [hf]
  refine ⟨hstate, ?_⟩
  have hiff : (checkBlockedIP true now ip db).1 ≠ BlockResult.proceed ↔
      (db.blockedIps.find? (blockActiveRow now ip)).isSome := by
    unfold checkBlockedIP
    cases hf : db.blockedIps.find? (blockActiveRow now ip) <;> simp [hf]
  rw [hiff, List.find?_isSome]
  constructor
  · rintro ⟨b, hmem, hb⟩
    have hchar := (blockActiveRow_iff now ip b).mp hb
    exact ⟨b, hmem, hchar.1,
      hchar.2.elim (fun hn => Or.inl ((hInv b hmem).mpr hn)) Or.inr⟩
  · rintro ⟨b, hmem, hip, hres⟩
    refine ⟨b, hmem, (blockActiveRow_iff now ip b).mpr ⟨hip, ?_⟩⟩
    exact hres.elim (fun hp => Or.inl ((hInv b hmem).mp hp)) Or.inr

/-- A permanently blocked address (kind permanent, no stored expiry). -/
def c7Block : BlockedIp :=
  { ip := "4.4.4.4", razon := "abuso", tipoBloqueo := "permanente",
    bloqueadoHasta := none, intentosFallidos := 1, vecesBloqueado := 1,
    primerIncidente := 0 }

/-- Store holding only the permanent block row. -/
def c7Db : DB := { emptyDb with blockedIps := [c7Block] }

/-- C7 witness: the characterisation evaluated on the permanent-block
store. -/
theorem c7_isBlocked_readonly_iff_witness :
    (checkBlockedIP true 100 "4.4.4.4" c7Db).2 = c7Db ∧
    ((checkBlockedIP true 100 "4.4.4.4" c7Db).1 ≠ BlockResult.proceed ↔
      ∃ b ∈ c7Db.blockedIps, b.ip = "4.4.4.4" ∧
        (b.tipoBloqueo = "permanente" ∨ ∃ h, b.bloqueadoHasta = some h ∧ 100 < h)) :=
  c7_isBlocked_readonly_iff 100 "4.4.4.4" c7Db (by decide)

/-- C8 amended: with the durable store unreachable, the token-validation
middleware (which hosts the authentication and quota checks) denies the
request with the generic internal error — fail-closed — while the
blocked-address check swallows its failure and lets the request proceed
to the next stage — fail-open — and both audit-log writers swallow their
failures, leaving the store untouched, so a logging outage never denies a
request. -/
theorem c8_failure_modes
    (hash : String → String) (now today : Nat) (ip ua path : String) (db : DB)
    (raw : String) (hraw : (raw == "") = false) :
    validateAPIToken false hash now today (some raw) ip ua path db =
      (VResult.internalError, db) ∧
    (∀ addr, checkBlockedIP false now addr db = (BlockResult.proceed, db)) ∧
    (∀ uidOpt et sev ep pl, logSecurityEvent false ip uidOpt et sev ep pl db = db) ∧
    (∀ uidOpt aty sev pl ep mth,
      logAttackAttempt false hash now ip uidOpt aty sev pl ep mth db = db) := by
  refine ⟨?_, fun addr => rfl, fun _ _ _ _ _ => rfl, fun _ _ _ _ _ _ => rfl⟩
  simp [validateAPIToken, hraw]

/-- A permanently blocked address used to exhibit the fail-open block
check. -/
def c8Block : BlockedIp :=
  { ip := "6.6.6.6", razon := "abuso de API", tipoBloqueo := "permanente",
    bloqueadoHasta := none, intentosFallidos := 0, vecesBloqueado := 1,
    primerIncidente := 0 }

/-- Store holding only that block row. -/
def c8Db : DB := { emptyDb with blockedIps := [c8Block] }

/-- C8 counterexample: with the store unreachable, the block check lets a
request from a permanently blocked address proceed to the next stage
(its catch calls `next()`), instead of denying it with the generic 500
the claim requires for every internal failure on the block-check path;
with the store reachable the same address is refused. -/
theorem c8_counterexample_blockcheck_fail_open :
    checkBlockedIP false 100 "6.6.6.6" c8Db = (BlockResult.proceed, c8Db) ∧
    (checkBlockedIP true 100 "6.6.6.6" c8Db).1 =
      BlockResult.blockedResp "abuso de API" none := by decide

/-- C8 witness: the failure modes evaluated on the block-row store. -/
theorem c8_failure_modes_witness :
    validateAPIToken false hashId 100 7 (some "fp_t") "9.9.9.9" "ua" "/p" c8Db =
      (VResult.internalError, c8Db) ∧
    checkBlockedIP false 100 "6.6.6.6" c8Db = (BlockResult.proceed, c8Db) ∧
    logSecurityEvent false "9.9.9.9" none "token_invalido" "media" "/p" none c8Db = c8Db ∧
    logAttackAttempt false hashId 100 "9.9.9.9" none "xss" "alta" "x" "/p" "POST" c8Db =
      c8Db :=
  ⟨(c8_failure_modes hashId 100 7 "9.9.9.9" "ua" "/p" c8Db "fp_t" (by decide)).1,
   (c8_failure_modes hashId 100 7 "9.9.9.9" "ua" "/p" c8Db "fp_t" (by decide)).2.1 "6.6.6.6",
   (c8_failure_modes hashId 100 7 "9.9.9.9" "ua" "/p" c8Db "fp_t" (by decide)).2.2.1 none
     "token_invalido" "media" "/p" none,
   (c8_failure_modes hashId 100 7 "9.9.9.9" "ua" "/p" c8Db "fp_t" (by decide)).2.2.2 none
     "xss" "alta" "x" "/p" "POST"⟩

/-- C9: issuing a token and immediately authenticating with the returned
raw secret succeeds — the digest computed at authentication equals the
stored digest of the issued token — and authenticating with any other
string (in particular any single-character mutation of the secret, which
is a different nonempty string) fails with the uniform
invalid-or-revoked error, provided the digest is collision-free
(injective) and the mutated string digests to no other stored token. -/
theorem c9_issue_then_authenticate
    (hash : String → String) (hInj : Function.Injective hash)
    (db : DB) (newId uid : Nat) (limiteDiario : Option Nat)
    (secret m : String) (now today : Nat) (ip ua path : String)
    (hUser : (joinedUser db uid).isSome = true)
    (hSecret : (secret == "") = false)
    (hQuota : currentUsage db uid today < limiteDiario.getD 1000)
    (hm : m ≠ secret) (hmNe : (m == "") = false)
    (hmFresh : ∀ t ∈ db.tokens, t.tokenHash ≠ hash m) :
    (∃ t rol, (validateAPIToken true hash now today (some secret) ip ua path
        (generateToken hash newId uid limiteDiario secret db)).1 = VResult.ok t rol ∧
      t.tokenHash = hash secret) ∧
    (validateAPIToken true hash now today (some m) ip ua path
        (generateToken hash newId uid limiteDiario secret db)).1 =
      VResult.invalidToken := by
  have hUser1 : (joinedUser (generateToken hash newId uid limiteDiario secret db)
      uid).isSome = true := hUser
  constructor
  · have hlook : tokenLookup (generateToken hash newId uid limiteDiario secret db)
        (hash secret) = some
          { id := newId, usuarioId := uid, tokenHash := hash secret,
            limiteRequestsDiario := limiteDiario.getD 1000, requestsUtilizadosHoy := 0,
            totalRequestsHistorico := 0, estado := "activo", fechaExpiracion := none,
            ultimoUso := none, ipUltimoUso := none, userAgentUltimoUso := none } := by
      apply List.find?_cons_of_pos
      simp [hUser1]
    have hq1 : ¬ (limiteDiario.getD 1000 ≤
        currentUsage (generateToken hash newId uid limiteDiario secret db) uid today) :=
      Nat.not_le.mpr hQuota
    refine ⟨{ id := newId, usuarioId := uid, tokenHash := hash secret,
              limiteRequestsDiario := limiteDiario.getD 1000, requestsUtilizadosHoy := 0,
              totalRequestsHistorico := 0, estado := "activo", fechaExpiracion := none,
              ultimoUso := none, ipUltimoUso := none, userAgentUltimoUso := none },
           ((joinedUser (generateToken hash newId uid limiteDiario secret db) uid).map
             (fun u => u.rol)).getD "", ?_, rfl⟩
    simp [validateAPIToken, hSecret, hlook, tokenExpired, hq1]
  · have hlook2 : tokenLookup (generateToken hash newId uid limiteDiario secret db)
        (hash m) = none := by
      rw [tokenLookup, List.find?_eq_none]
      intro x hx hpx
      have hx1 : (x.tokenHash == hash m) = true := by
        simp [Bool.and_eq_true] at hpx
        exact beq_iff_eq.mpr hpx.1.1
      have hx2 : x.tokenHash = hash m := beq_iff_eq.mp hx1
      rcases List.mem_cons.mp hx with heq | hxl
      · rw [heq] at hx2
        exact hm (hInj hx2).symm
      · exact hmFresh x hxl hx2
    simp [validateAPIToken, hmNe, hlook2]

/-- Store with the active owner and no tokens, ready for issuance. -/
def issuerDb : DB := { emptyDb with usuarios := [demoUser] }

/-- C9 witness: issue a token with raw secret `fp_a` into `issuerDb`,
authenticate with `fp_a` (succeeds) and with the mutation `fp_b` (fails
invalid), under the identity digest. -/
theorem c9_issue_then_authenticate_witness :
    (∃ t rol, (validateAPIToken true hashId 100 7 (some "fp_a") "i" "u" "/p"
        (generateToken hashId 9 1 none "fp_a" issuerDb)).1 = VResult.ok t rol ∧
      t.tokenHash = hashId "fp_a") ∧
    (validateAPIToken true hashId 100 7 (some "fp_b") "i" "u" "/p"
        (generateToken hashId 9 1 none "fp_a" issuerDb)).1 = VResult.invalidToken :=
  c9_issue_then_authenticate hashId (fun _ _ h => h) issuerDb 9 1 none "fp_a" "fp_b"
    100 7 "i" "u" "/p" (by decide) (by decide) (by decide) (by decide) (by decide)
    (by decide)

end FastPaw
